import Mathlib

/-!
Verification development for the minimal Embree tutorial
(src/tutorials/minimal/minimal.cc).

The tutorial is thin glue around the external ray-tracing library: it
builds a one-triangle scene, wraps ray queries in CastRay, and (in the
windowed variant) paints per-pixel hit results into an RGBA buffer every
frame.  Floating-point values of the source are embedded as exact
rationals; the 32-bit id fields are embedded as natural numbers.  The
library's intersection kernel is not part of the repository snapshot, so
it is modelled from the specification (see the doc comments marked
"Modelled from the spec").
-/

/-- Three-component vector of rationals, embedding the float triples of the
source (ray origin, ray direction, vertex position). -/
abbrev Vec3 := ℚ × ℚ × ℚ

/-- Componentwise subtraction of three-vectors. -/
def vsub (a b : Vec3) : Vec3 :=
  (a.1 - b.1, a.2.1 - b.2.1, a.2.2 - b.2.2)

/-- Dot product of three-vectors. -/
def dot (a b : Vec3) : ℚ :=
  a.1 * b.1 + a.2.1 * b.2.1 + a.2.2 * b.2.2

/-- Cross product of three-vectors. -/
def cross (a b : Vec3) : Vec3 :=
  (a.2.1 * b.2.2 - a.2.2 * b.2.1,
   a.2.2 * b.1 - a.1 * b.2.2,
   a.1 * b.2.1 - a.2.1 * b.1)

/-- Extended rational: a finite value or positive infinity.  Embeds the
float field tfar, which the source initializes to
std::numeric_limits float ::infinity(). -/
inductive ExtQ where
  | fin : ℚ → ExtQ
  | inf : ExtQ
deriving DecidableEq

/-- Comparison t less-or-equal an extended rational (everything is below
positive infinity). -/
def ExtQ.leb (t : ℚ) : ExtQ → Bool
  | ExtQ.fin q => decide (t ≤ q)
  | ExtQ.inf => true

/-- Vertex record of the source: position x, y, z.  The source struct also
carries a fourth float for padding and alignment that is never written or
read by the program, so it carries no data here. -/
structure Vertex where
  x : ℚ
  y : ℚ
  z : ℚ
deriving DecidableEq

/-- Triangle record of the source: three vertex indices (C ints). -/
structure Triangle where
  v0 : Int
  v1 : Int
  v2 : Int
deriving DecidableEq

/-- One triangle-mesh geometry of a scene: the capacities passed to
rtcNewTriangleMesh and the contents of the vertex and index buffers. -/
structure Geometry where
  numTriangles : Nat
  numVertices : Nat
  vertices : List Vertex
  triangles : List Triangle
deriving DecidableEq

/-- A scene: the list of geometries (the source creates exactly one) and
whether rtcCommit has run, after which the scene is queryable. -/
structure Scene where
  geoms : List Geometry
  committed : Bool
deriving DecidableEq

/-- The sentinel RTC_INVALID_GEOMETRY_ID, i.e. ((unsigned int)-1). -/
def RTC_INVALID_GEOMETRY_ID : Nat := 4294967295

/-- The RTCRay record as initialized and read by CastRay: origin,
direction, near and far bounds, the three id fields, mask and time. -/
structure Ray where
  org : Vec3
  dir : Vec3
  tnear : ℚ
  tfar : ExtQ
  instID : Nat
  geomID : Nat
  primID : Nat
  mask : Nat
  time : ℚ
deriving DecidableEq

/-- Fetch a vertex position from a geometry by (possibly negative) index. -/
def getVertex (g : Geometry) (i : Int) : Option Vec3 :=
  if i < 0 then none
  else (g.vertices.get? i.toNat).map fun v => (v.x, v.y, v.z)

/-- Modelled from the spec: the geometric ray-triangle test of the external
RayIntersectionService (the embree intersection kernel is not in the
repository snapshot).  The spec describes the service as returning whether
the ray hits the triangle and, if so, the parametric distance; this is the
standard barycentric (Moller-Trumbore) formulation over exact rationals,
accepting boundary points of the triangle. -/
def rayTriHit (o d a b c : Vec3) : Option ℚ :=
  let e1 := vsub b a
  let e2 := vsub c a
  let p := cross d e2
  let det := dot e1 p
  if det = 0 then none
  else
    let tv := vsub o a
    let u := dot tv p / det
    let q := cross tv e1
    let v := dot d q / det
    if 0 ≤ u ∧ 0 ≤ v ∧ u + v ≤ 1 then some (dot e2 q / det) else none

/-- Parametric hit distance of a ray against one triangle of a geometry,
resolving the vertex indices; out-of-range indices yield no hit. -/
def triHitT (g : Geometry) (o d : Vec3) (t : Triangle) : Option ℚ :=
  match getVertex g t.v0, getVertex g t.v1, getVertex g t.v2 with
  | some a, some b, some c => rayTriHit o d a b c
  | _, _, _ => none

/-- Write hit metadata back into the ray: geometry id, primitive id, and
the parametric distance into tfar, as the spec describes the service
doing on a successful intersection. -/
def updateHit (r : Ray) (gid pid : Nat) (t : ℚ) : Ray :=
  { r with geomID := gid, primID := pid, tfar := ExtQ.fin t }

/-- Modelled from the spec: intersect the ray against the triangles of one
geometry (primitive ids counted from pid0), keeping the closest hit inside
the ray's parametric bounds. -/
def intersectTris (g : Geometry) (gid : Nat) : Nat → List Triangle → Ray → Ray
  | _, [], r => r
  | pid, tri :: rest, r =>
      intersectTris g gid (pid + 1) rest
        (match triHitT g r.org r.dir tri with
         | some t =>
             if decide (r.tnear ≤ t) && ExtQ.leb t r.tfar then
               updateHit r gid pid t
             else r
         | none => r)

/-- Modelled from the spec: intersect the ray against a list of geometries
(geometry ids counted from gid0). -/
def intersectGeoms : Nat → List Geometry → Ray → Ray
  | _, [], r => r
  | gid, g :: rest, r => intersectGeoms (gid + 1) rest (intersectTris g gid 0 g.triangles r)

/-- Modelled from the spec: rtcIntersect of the external
RayIntersectionService.  A committed scene answers queries by writing hit
info back into the ray; an uncommitted scene is not yet queryable and the
ray keeps its sentinel ids. -/
def rtcIntersect (scene : Scene) (ray : Ray) : Ray :=
  if scene.committed then intersectGeoms 0 scene.geoms ray else ray

/-- Modelled from the spec: the query is read-only against the scene
("Side effect: none beyond the query itself"), so the state-passing form
of rtcIntersect returns the scene unchanged next to the updated ray. -/
def rtcIntersectOp (scene : Scene) (ray : Ray) : Scene × Ray :=
  (scene, rtcIntersect scene ray)

/-- The ray record CastRay builds before querying: the given origin and
direction, tnear = 0, tfar = positive infinity, the three id fields set to
the invalid sentinel, full mask, time 0. -/
def initialRay (ox oy oz dx dy dz : ℚ) : Ray :=
  { org := (ox, oy, oz)
    dir := (dx, dy, dz)
    tnear := 0
    tfar := ExtQ.inf
    instID := RTC_INVALID_GEOMETRY_ID
    geomID := RTC_INVALID_GEOMETRY_ID
    primID := RTC_INVALID_GEOMETRY_ID
    mask := 4294967295
    time := 0 }

/-- CastRay in state-passing form: build the ray record, submit it with
rtcIntersect, and report whether the post-query geometry id differs from
the invalid sentinel.  The scene component records the (absent) effect on
the scene. -/
def castRayOp (scene : Scene) (ox oy oz dx dy dz : ℚ) : Scene × Bool :=
  let sr := rtcIntersectOp scene (initialRay ox oy oz dx dy dz)
  (sr.1, decide (sr.2.geomID ≠ RTC_INVALID_GEOMETRY_ID))

/-- CastRay of the source: returns true iff the query left a valid
geometry id in the ray. -/
def castRay (scene : Scene) (ox oy oz dx dy dz : ℚ) : Bool :=
  (castRayOp scene ox oy oz dx dy dz).2

/-- Device handle as the program sees it: whether rtcNewDevice succeeded,
and the error callback registered by rtcDeviceSetErrorFunction2. -/
structure RTCDevice where
  valid : Bool
  errorFn : Int → String → String

/-- rtcDeviceNewScene: a fresh scene with no geometry, not yet committed. -/
def rtcDeviceNewScene (_device : RTCDevice) : Scene :=
  { geoms := [], committed := false }

/-- rtcNewTriangleMesh: append a geometry with the requested capacities
(buffers initially zero-filled placeholders) and return its mesh id. -/
def rtcNewTriangleMesh (s : Scene) (numTriangles numVertices : Nat) : Scene × Nat :=
  ({ s with
      geoms := s.geoms ++
        [{ numTriangles := numTriangles
           numVertices := numVertices
           vertices := List.replicate numVertices { x := 0, y := 0, z := 0 }
           triangles := List.replicate numTriangles { v0 := 0, v1 := 0, v2 := 0 } }] },
   s.geoms.length)

/-- Apply an update to geometry number mesh of a scene. -/
def modifyGeom (s : Scene) (mesh : Nat) (f : Geometry → Geometry) : Scene :=
  match s.geoms.get? mesh with
  | some g => { s with geoms := s.geoms.set mesh (f g) }
  | none => s

/-- Write one vertex of the mapped vertex buffer of mesh number mesh. -/
def setVertex (s : Scene) (mesh i : Nat) (v : Vertex) : Scene :=
  modifyGeom s mesh fun g => { g with vertices := g.vertices.set i v }

/-- Write one index triple of the mapped index buffer of mesh number mesh. -/
def setTriangle (s : Scene) (mesh i : Nat) (t : Triangle) : Scene :=
  modifyGeom s mesh fun g => { g with triangles := g.triangles.set i t }

/-- rtcCommit: finalize the scene so it becomes queryable. -/
def rtcCommit (s : Scene) : Scene :=
  { s with committed := true }

/-- initializeScene of the source: create a scene on the device, create one
triangle mesh with capacity for 1 triangle and 3 vertices, write the three
vertex positions (0,0,0), (1,0,0), (0,1,0) and the single index triple
(0,1,2), and commit the scene. -/
def initializeScene (device : RTCDevice) : Scene :=
  let sm := rtcNewTriangleMesh (rtcDeviceNewScene device) 1 3
  let scene := sm.1
  let mesh := sm.2
  let scene := setVertex scene mesh 0 { x := 0, y := 0, z := 0 }
  let scene := setVertex scene mesh 1 { x := 1, y := 0, z := 0 }
  let scene := setVertex scene mesh 2 { x := 0, y := 1, z := 0 }
  let scene := setTriangle scene mesh 0 { v0 := 0, v1 := 1, v2 := 2 }
  rtcCommit scene

/-- The concrete geometry initializeScene builds: the unit right triangle
in the z = 0 plane, with capacities 1 triangle and 3 vertices. -/
def builtGeom : Geometry :=
  { numTriangles := 1
    numVertices := 3
    vertices := [{ x := 0, y := 0, z := 0 },
                 { x := 1, y := 0, z := 0 },
                 { x := 0, y := 1, z := 0 }]
    triangles := [{ v0 := 0, v1 := 1, v2 := 2 }] }

/-- The concrete committed scene initializeScene produces. -/
def builtScene : Scene :=
  { geoms := [builtGeom]
    committed := true }

theorem initializeScene_eq (device : RTCDevice) : initializeScene device = builtScene := rfl

theorem builtGeom_triangles :
    builtGeom.triangles = [{ v0 := 0, v1 := 1, v2 := 2 }] := rfl

theorem triHitT_builtGeom (o d : Vec3) :
    triHitT builtGeom o d { v0 := 0, v1 := 1, v2 := 2 } =
      rayTriHit o d (0, 0, 0) (1, 0, 0) (0, 1, 0) := rfl


/-- The divisor of the horizontal (or vertical) pixel mapping: width minus
one as a C int (the source computes x / (width - 1)). -/
def xDen (W : Nat) : Int := (W : Int) - 1

/-- Horizontal component of the ray origin the render loop maps pixel
column x to: -0.1 + 1.2 * x / (width - 1). -/
def pixelOx (W x : Nat) : ℚ := -(1 / 10) + (6 / 5) * (x : ℚ) / ((xDen W : Int) : ℚ)

/-- Vertical component of the ray origin the render loop maps pixel row y
to: -0.1 + 1.2 * y / (height - 1). -/
def pixelOy (H y : Nat) : ℚ := -(1 / 10) + (6 / 5) * (y : ℚ) / ((xDen H : Int) : ℚ)

/-- The intensity byte of frame number n: the source computes
static_cast of (++frame % 128) to uint8_t, plus 128, so frame n paints
n % 128 + 128. -/
def intensity (n : Nat) : Nat := n % 128 + 128

/-- Flat index of the first (red) channel byte of pixel (x, y) in the RGBA
pixel buffer: 4 * (y * width + x). -/
def pixelBase (W x y : Nat) : Nat := 4 * (y * W + x)

/-- Indexed store into a byte buffer represented as a function from flat
index to value, embedding an assignment pixels[i] = v. -/
def store (f : Nat → Nat) (i v : Nat) : Nat → Nat :=
  fun j => if j = i then v else f j

/-- The red byte the render loop writes for pixel (x, y): the frame's
intensity byte c on a CastRay hit, 0 otherwise. -/
def redByte (scene : Scene) (W H c x y : Nat) : Nat :=
  if castRay scene (pixelOx W x) (pixelOy H y) (-1) 0 0 1 then c else 0

/-- The body of the inner render loop for pixel (x, y): write the
hit-dependent red byte, 0 into green and blue, and 255 into alpha, at the
pixel's four flat buffer indices. -/
def renderPixel (scene : Scene) (W H c x y : Nat) (buf : Nat → Nat) : Nat → Nat :=
  store (store (store (store buf
    (pixelBase W x y) (redByte scene W H c x y))
    (pixelBase W x y + 1) 0)
    (pixelBase W x y + 2) 0)
    (pixelBase W x y + 3) 255

/-- One iteration of the outer render loop: paint every pixel of row y. -/
def renderRow (scene : Scene) (W H c y : Nat) (buf : Nat → Nat) : Nat → Nat :=
  (List.range W).foldl (fun b x => renderPixel scene W H c x y b) buf

/-- One whole frame: paint every row of the framebuffer. -/
def renderFrame (scene : Scene) (W H c : Nat) (buf : Nat → Nat) : Nat → Nat :=
  (List.range H).foldl (fun b y => renderRow scene W H c y b) buf

/-- The state the render loop of main threads from iteration to
iteration: the scene handle, the frame counter, and the pixel buffer. -/
structure LoopState where
  scene : Scene
  frame : Nat
  pixels : Nat → Nat

/-- One iteration of the while loop of main: increment the frame counter,
compute the frame's intensity byte, and repaint the whole buffer. -/
def loopIter (W H : Nat) (st : LoopState) : LoopState :=
  { scene := st.scene
    frame := st.frame + 1
    pixels := renderFrame st.scene W H (intensity (st.frame + 1)) st.pixels }

/-- Run n iterations of the render loop of main. -/
def runLoop (W H : Nat) : Nat → LoopState → LoopState
  | 0, st => st
  | n + 1, st => runLoop W H n (loopIter W H st)

/-- The external API calls main performs, in source order, as a trace of
events.  Device and window bookkeeping calls are opaque events; the
intersect event records the submitted ray origin and direction. -/
inductive Event where
  | newDevice : Event
  | setErrorFunction : Event
  | newScene : Event
  | newTriangleMesh : Nat → Nat → Event
  | writeVertexBuffer : Event
  | writeIndexBuffer : Event
  | commit : Event
  | glfwInit : Event
  | createWindow : Nat → Nat → Event
  | pollEvents : Event
  | intersect : Vec3 → Vec3 → Event
  | drawPixels : Event
  | swapBuffers : Event
  | deleteScene : Event
  | deleteDevice : Event
  | destroyWindow : Event
  | glfwTerminate : Event
deriving DecidableEq

/-- Whether an event is a ray-intersection query. -/
def isIntersect : Event → Bool
  | Event.intersect _ _ => true
  | _ => false

/-- Whether an event releases the scene. -/
def isDeleteScene : Event → Bool
  | Event.deleteScene => true
  | _ => false

/-- Whether an event releases the device. -/
def isDeleteDevice : Event → Bool
  | Event.deleteDevice => true
  | _ => false

/-- Whether an event acquires the scene. -/
def isNewScene : Event → Bool
  | Event.newScene => true
  | _ => false

/-- Whether an event acquires the device. -/
def isNewDevice : Event → Bool
  | Event.newDevice => true
  | _ => false

/-- The initialization events of main: initializeDevice, initializeScene
(scene creation, mesh creation, buffer writes, commit), then the window
setup. -/
def initEvents (W H : Nat) : List Event :=
  [Event.newDevice, Event.setErrorFunction, Event.newScene,
   Event.newTriangleMesh 1 3, Event.writeVertexBuffer, Event.writeIndexBuffer,
   Event.commit, Event.glfwInit, Event.createWindow W H]

/-- The ray queries of one frame: one intersect per pixel, rows outside
and columns inside, each with the pixel's mapped origin and the fixed
direction (0, 0, 1). -/
def pixelEvents (W H : Nat) : List Event :=
  (List.range H).flatMap fun y =>
    (List.range W).map fun x =>
      Event.intersect (pixelOx W x, pixelOy H y, -1) (0, 0, 1)

/-- The events of one iteration of the while loop of main: poll events,
cast a ray per pixel, then present the buffer. -/
def frameEvents (W H : Nat) : List Event :=
  Event.pollEvents :: pixelEvents W H ++ [Event.drawPixels, Event.swapBuffers]

/-- The shutdown events of main after the window is closed: release the
scene, release the device, destroy the window, terminate the window
library. -/
def shutdownEvents : List Event :=
  [Event.deleteScene, Event.deleteDevice, Event.destroyWindow, Event.glfwTerminate]

/-- The whole trace of a terminating run of main in which the render loop
runs for a given number of frames before the user closes the window. -/
def mainTrace (frames W H : Nat) : List Event :=
  initEvents W H ++ List.flatten (List.replicate frames (frameEvents W H)) ++ shutdownEvents

/-- Where a printed line of the program comes from: a direct printf in the
program text, or the error callback registered with the device. -/
inductive OutputSource where
  | directPrintf : OutputSource
  | errorCallback : OutputSource
deriving DecidableEq

/-- One printed line together with its provenance. -/
structure OutputLine where
  src : OutputSource
  text : String
deriving DecidableEq

/-- errorFunction of the source, the handler registered with the device:
prints "error code: message" through the callback. -/
def errorFunction (error : Int) (str : String) : OutputLine :=
  { src := OutputSource.errorCallback
    text := "error " ++ toString error ++ ": " ++ str ++ "\n" }

/-- Whether some line of the output came through the registered error
callback. -/
def reportedViaCallback (out : List OutputLine) : Bool :=
  out.any fun l => decide (l.src = OutputSource.errorCallback)

/-- initializeDevice of the source.  The outcome of rtcNewDevice is an
input (a handle, or none on failure) together with the pending error code
rtcDeviceGetError would report.  On a null handle the function prints
"cannot create device" with a direct printf; it then registers
errorFunction on the device and returns the possibly-invalid handle
instead of aborting. -/
def initializeDevice (handle : Option Unit) (pendingError : Int) :
    RTCDevice × List OutputLine :=
  let out :=
    if handle.isNone then
      [{ src := OutputSource.directPrintf
         text := "error " ++ toString pendingError ++ ": cannot create device\n" }]
    else []
  ({ valid := handle.isSome
     errorFn := fun e s => (errorFunction e s).text }, out)

/-- The byte the render loop writes at channel k of a pixel: the
hit-dependent red byte at k = 0, the constant 255 alpha at k = 3, and 0
for green and blue. -/
def chanVal (scene : Scene) (W H c x y k : Nat) : Nat :=
  if k = 0 then redByte scene W H c x y else if k = 3 then 255 else 0

theorem store_at (f : Nat → Nat) (i v : Nat) : store f i v i = v := by
  simp [store]

theorem store_ne (f : Nat → Nat) (i v j : Nat) (h : j ≠ i) : store f i v j = f j := by
  simp [store, h]

theorem renderPixel_untouched (scene : Scene) (W H c x y : Nat) (buf : Nat → Nat) (j : Nat)
    (h : ∀ k, k < 4 → j ≠ pixelBase W x y + k) :
    renderPixel scene W H c x y buf j = buf j := by
  have h0 := h 0 (by omega)
  have h1 := h 1 (by omega)
  have h2 := h 2 (by omega)
  have h3 := h 3 (by omega)
  simp only [renderPixel, store]
  rw [if_neg h3, if_neg h2, if_neg h1, if_neg (by simpa using h0)]

theorem renderPixel_chan (scene : Scene) (W H c x y : Nat) (buf : Nat → Nat) (k : Nat)
    (hk : k < 4) :
    renderPixel scene W H c x y buf (pixelBase W x y + k) = chanVal scene W H c x y k := by
  interval_cases k <;>
    simp only [renderPixel, chanVal, store] <;>
    norm_num

theorem foldl_renderPixel_untouched (scene : Scene) (W H c y : Nat) (xs : List Nat)
    (buf : Nat → Nat) (j : Nat)
    (h : ∀ x ∈ xs, ∀ k, k < 4 → j ≠ pixelBase W x y + k) :
    (xs.foldl (fun b x => renderPixel scene W H c x y b) buf) j = buf j := by
  induction xs generalizing buf with
  | nil => rfl
  | cons a xs ih =>
      have ha := h a (by simp)
      have hxs : ∀ x ∈ xs, ∀ k, k < 4 → j ≠ pixelBase W x y + k := by
        intro x hx
        exact h x (by simp [hx])
      rw [List.foldl_cons, ih _ hxs, renderPixel_untouched scene W H c a y buf j ha]

theorem foldl_renderPixel_at (scene : Scene) (W H c y : Nat) (xs : List Nat)
    (buf : Nat → Nat) (x k : Nat) (hx : x ∈ xs) (hnd : xs.Nodup) (hk : k < 4) :
    (xs.foldl (fun b x => renderPixel scene W H c x y b) buf) (pixelBase W x y + k) =
      chanVal scene W H c x y k := by
  induction xs generalizing buf with
  | nil => cases hx
  | cons a xs ih =>
      rw [List.foldl_cons]
      rcases List.mem_cons.mp hx with rfl | hx2
      · have hnotin : x ∉ xs := (List.nodup_cons.mp hnd).1
        have huntouched : ∀ x' ∈ xs, ∀ k', k' < 4 →
            pixelBase W x y + k ≠ pixelBase W x' y + k' := by
          intro x' hx' k' hk'
          have hne : x' ≠ x := fun e => hnotin (e ▸ hx')
          simp only [pixelBase]
          omega
        rw [foldl_renderPixel_untouched scene W H c y xs _ _ huntouched,
          renderPixel_chan scene W H c x y buf k hk]
      · exact ih _ hx2 (List.nodup_cons.mp hnd).2

theorem renderRow_untouched (scene : Scene) (W H c y : Nat) (buf : Nat → Nat) (j : Nat)
    (h : ∀ x, x < W → ∀ k, k < 4 → j ≠ pixelBase W x y + k) :
    renderRow scene W H c y buf j = buf j := by
  refine foldl_renderPixel_untouched scene W H c y (List.range W) buf j ?_
  intro x hx
  exact h x (List.mem_range.mp hx)

theorem renderRow_at (scene : Scene) (W H c y : Nat) (buf : Nat → Nat) (x k : Nat)
    (hx : x < W) (hk : k < 4) :
    renderRow scene W H c y buf (pixelBase W x y + k) = chanVal scene W H c x y k :=
  foldl_renderPixel_at scene W H c y (List.range W) buf x k
    (List.mem_range.mpr hx) (List.nodup_range W) hk

theorem pixelBase_inj (W x x' y y' k k' : Nat) (hx : x < W) (hx' : x' < W)
    (hk : k < 4) (hk' : k' < 4)
    (h : pixelBase W x y + k = pixelBase W x' y' + k') :
    y = y' ∧ x = x' ∧ k = k' := by
  simp only [pixelBase] at h
  have hW : 0 < W := lt_of_le_of_lt (Nat.zero_le x) hx
  have hp : y * W + x = y' * W + x' ∧ k = k' := by omega
  obtain ⟨hp1, rfl⟩ := hp
  have e1 : (y * W + x) / W = y := by
    rw [Nat.add_comm, Nat.mul_comm, Nat.add_mul_div_left x y hW,
      Nat.div_eq_of_lt hx, Nat.zero_add]
  have e2 : (y' * W + x') / W = y' := by
    rw [Nat.add_comm, Nat.mul_comm, Nat.add_mul_div_left x' y' hW,
      Nat.div_eq_of_lt hx', Nat.zero_add]
  have hy : y = y' := by rw [← e1, ← e2, hp1]
  subst hy
  have hx2 : x = x' := by omega
  exact ⟨rfl, hx2, rfl⟩

theorem foldl_renderRow_untouched (scene : Scene) (W H c : Nat) (ys : List Nat)
    (buf : Nat → Nat) (j : Nat)
    (h : ∀ y ∈ ys, ∀ x, x < W → ∀ k, k < 4 → j ≠ pixelBase W x y + k) :
    (ys.foldl (fun b y => renderRow scene W H c y b) buf) j = buf j := by
  induction ys generalizing buf with
  | nil => rfl
  | cons a ys ih =>
      have ha := h a (by simp)
      have hys : ∀ y ∈ ys, ∀ x, x < W → ∀ k, k < 4 → j ≠ pixelBase W x y + k := by
        intro y hy
        exact h y (by simp [hy])
      rw [List.foldl_cons, ih _ hys, renderRow_untouched scene W H c a buf j ha]

theorem foldl_renderRow_at (scene : Scene) (W H c : Nat) (ys : List Nat)
    (buf : Nat → Nat) (x y k : Nat) (hy : y ∈ ys) (hnd : ys.Nodup)
    (hx : x < W) (hk : k < 4) :
    (ys.foldl (fun b y => renderRow scene W H c y b) buf) (pixelBase W x y + k) =
      chanVal scene W H c x y k := by
  induction ys generalizing buf with
  | nil => cases hy
  | cons a ys ih =>
      rw [List.foldl_cons]
      rcases List.mem_cons.mp hy with rfl | hy2
      · have hnotin : y ∉ ys := (List.nodup_cons.mp hnd).1
        have huntouched : ∀ y' ∈ ys, ∀ x', x' < W → ∀ k', k' < 4 →
            pixelBase W x y + k ≠ pixelBase W x' y' + k' := by
          intro y' hy' x' hx' k' hk' heq
          obtain ⟨hyy, _, _⟩ := pixelBase_inj W x x' y y' k k' hx hx' hk hk' heq
          exact hnotin (hyy ▸ hy')
        rw [foldl_renderRow_untouched scene W H c ys _ _ huntouched,
          renderRow_at scene W H c y buf x k hx hk]
      · exact ih _ hy2 (List.nodup_cons.mp hnd).2

theorem renderFrame_at (scene : Scene) (W H c : Nat) (buf : Nat → Nat) (x y k : Nat)
    (hx : x < W) (hy : y < H) (hk : k < 4) :
    renderFrame scene W H c buf (pixelBase W x y + k) = chanVal scene W H c x y k :=
  foldl_renderRow_at scene W H c (List.range H) buf x y k
    (List.mem_range.mpr hy) (List.nodup_range H) hx hk

/-- C1: for every origin and direction triple, CastRay builds a ray record
with near bound 0, far bound positive infinity, and the geometry,
primitive, and instance id fields all set to the invalid sentinel, submits
it for intersection against the scene, and returns true if and only if the
geometry id field after the query differs from the invalid sentinel. -/
theorem castRay_builds_and_tests_ray (scene : Scene) (ox oy oz dx dy dz : ℚ) :
    (initialRay ox oy oz dx dy dz).org = (ox, oy, oz) ∧
    (initialRay ox oy oz dx dy dz).dir = (dx, dy, dz) ∧
    (initialRay ox oy oz dx dy dz).tnear = 0 ∧
    (initialRay ox oy oz dx dy dz).tfar = ExtQ.inf ∧
    (initialRay ox oy oz dx dy dz).geomID = RTC_INVALID_GEOMETRY_ID ∧
    (initialRay ox oy oz dx dy dz).primID = RTC_INVALID_GEOMETRY_ID ∧
    (initialRay ox oy oz dx dy dz).instID = RTC_INVALID_GEOMETRY_ID ∧
    (castRay scene ox oy oz dx dy dz = true ↔
      (rtcIntersect scene (initialRay ox oy oz dx dy dz)).geomID ≠ RTC_INVALID_GEOMETRY_ID) := by
  refine ⟨rfl, rfl, rfl, rfl, rfl, rfl, rfl, ?_⟩
  simp [castRay, castRayOp, rtcIntersectOp]

/-- C3: against the committed single-triangle scene, the ray from
(0,0,-1) in direction (0,0,1) hits (at parametric distance 1, recorded in
tfar), and the ray from (1,1,-1) in direction (0,0,1) misses. -/
theorem castRay_triangle_hit_and_miss (device : RTCDevice) :
    castRay (initializeScene device) 0 0 (-1) 0 0 1 = true ∧
    (rtcIntersect (initializeScene device) (initialRay 0 0 (-1) 0 0 1)).tfar = ExtQ.fin 1 ∧
    castRay (initializeScene device) 1 1 (-1) 0 0 1 = false := by
  rw [initializeScene_eq]
  refine ⟨?_, ?_, ?_⟩ <;>
    norm_num [castRay, castRayOp, rtcIntersectOp, rtcIntersect, builtScene, intersectGeoms,
      intersectTris, builtGeom_triangles, triHitT_builtGeom, rayTriHit, vsub, dot, cross,
      initialRay, updateHit, ExtQ.leb, RTC_INVALID_GEOMETRY_ID]

/-- C4: for every frame number n of at least 1, the intensity byte of
frame n lies in the interval from 128 to 255, and the sequence of
intensity bytes is periodic with period 128 in the frame counter. -/
theorem intensity_range_and_period (n : Nat) (h : 1 ≤ n) :
    (128 ≤ intensity n ∧ intensity n ≤ 255) ∧ intensity (n + 128) = intensity n := by
  unfold intensity
  omega

/-- Witness for the intensity theorem at the concrete frame number 1. -/
theorem intensity_range_and_period_witness :
    (128 ≤ intensity 1 ∧ intensity 1 ≤ 255) ∧ intensity (1 + 128) = intensity 1 :=
  intensity_range_and_period 1 (by decide)

/-- C5: scene initialization creates exactly one triangle-mesh geometry
with capacity for 3 vertices and 1 index triple, writes the vertex
positions (0,0,0), (1,0,0), (0,1,0) and the index triple (0,1,2), and
commits the scene; in the program's trace the commit precedes every ray
query. -/
theorem initializeScene_builds_and_commits (device : RTCDevice) (frames W H : Nat) :
    initializeScene device = builtScene ∧
    builtScene.geoms = [builtGeom] ∧
    builtGeom.numVertices = 3 ∧
    builtGeom.numTriangles = 1 ∧
    builtGeom.vertices = [{ x := 0, y := 0, z := 0 },
                          { x := 1, y := 0, z := 0 },
                          { x := 0, y := 1, z := 0 }] ∧
    builtGeom.triangles = [{ v0 := 0, v1 := 1, v2 := 2 }] ∧
    builtScene.committed = true ∧
    ∃ l1 l2, mainTrace frames W H = l1 ++ Event.commit :: l2 ∧
      ∀ e ∈ l1, isIntersect e = false := by
  refine ⟨initializeScene_eq device, rfl, rfl, rfl, rfl, rfl, rfl, ?_⟩
  refine ⟨[Event.newDevice, Event.setErrorFunction, Event.newScene,
      Event.newTriangleMesh 1 3, Event.writeVertexBuffer, Event.writeIndexBuffer],
    [Event.glfwInit, Event.createWindow W H] ++
      List.flatten (List.replicate frames (frameEvents W H)) ++ shutdownEvents,
    rfl, by decide⟩

/-- C2: for every frame and pixel (x,y) of a framebuffer with width and
height at least 2, the renderer maps the pixel to the ray origin
(-0.1 + 1.2 x / (W-1), -0.1 + 1.2 y / (H-1), -1) with direction (0,0,1);
the red channel is the frame's intensity byte on a hit and 0 otherwise;
green and blue are 0 and alpha is 255. -/
theorem renderFrame_pixel_channels (scene : Scene) (W H n x y : Nat) (buf : Nat → Nat)
    (hW : 2 ≤ W) (hH : 2 ≤ H) (hx : x < W) (hy : y < H) :
    pixelOx W x = -(1 / 10 : ℚ) + (6 / 5) * (x : ℚ) / ((W : ℚ) - 1) ∧
    pixelOy H y = -(1 / 10 : ℚ) + (6 / 5) * (y : ℚ) / ((H : ℚ) - 1) ∧
    renderFrame scene W H (intensity n) buf (pixelBase W x y) =
      (if castRay scene (pixelOx W x) (pixelOy H y) (-1) 0 0 1 then intensity n else 0) ∧
    renderFrame scene W H (intensity n) buf (pixelBase W x y + 1) = 0 ∧
    renderFrame scene W H (intensity n) buf (pixelBase W x y + 2) = 0 ∧
    renderFrame scene W H (intensity n) buf (pixelBase W x y + 3) = 255 := by
  refine ⟨?_, ?_, ?_, ?_, ?_, ?_⟩
  · simp only [pixelOx, xDen]
    push_cast
    ring
  · simp only [pixelOy, xDen]
    push_cast
    ring
  · have h := renderFrame_at scene W H (intensity n) buf x y 0 hx hy (by omega)
    simpa [chanVal, redByte] using h
  · have h := renderFrame_at scene W H (intensity n) buf x y 1 hx hy (by omega)
    simpa [chanVal, redByte] using h
  · have h := renderFrame_at scene W H (intensity n) buf x y 2 hx hy (by omega)
    simpa [chanVal, redByte] using h
  · have h := renderFrame_at scene W H (intensity n) buf x y 3 hx hy (by omega)
    simpa [chanVal, redByte] using h

/-- Witness for the per-pixel renderer theorem at frame 1, pixel (0,0) of
a 2 by 2 framebuffer over the committed single-triangle scene. -/
theorem renderFrame_pixel_channels_witness :
    pixelOx 2 0 = -(1 / 10 : ℚ) + (6 / 5) * ((0 : Nat) : ℚ) / (((2 : Nat) : ℚ) - 1) ∧
    pixelOy 2 0 = -(1 / 10 : ℚ) + (6 / 5) * ((0 : Nat) : ℚ) / (((2 : Nat) : ℚ) - 1) ∧
    renderFrame builtScene 2 2 (intensity 1) (fun _ => 0) (pixelBase 2 0 0) =
      (if castRay builtScene (pixelOx 2 0) (pixelOy 2 0) (-1) 0 0 1 then intensity 1 else 0) ∧
    renderFrame builtScene 2 2 (intensity 1) (fun _ => 0) (pixelBase 2 0 0 + 1) = 0 ∧
    renderFrame builtScene 2 2 (intensity 1) (fun _ => 0) (pixelBase 2 0 0 + 2) = 0 ∧
    renderFrame builtScene 2 2 (intensity 1) (fun _ => 0) (pixelBase 2 0 0 + 3) = 255 :=
  renderFrame_pixel_channels builtScene 2 2 1 0 0 (fun _ => 0)
    (by decide) (by decide) (by decide) (by decide)

/-- C10: the pixel mapping divides by width minus 1 and height minus 1;
for width and height at least 2 both divisors are nonzero, while for a
framebuffer of width and height 1 the divisor is zero and the render loop
reaches that division at pixel (0,0). -/
theorem pixel_divisors (scene : Scene) (c : Nat) (buf : Nat → Nat) (W H : Nat)
    (hW : 2 ≤ W) (hH : 2 ≤ H) :
    (xDen W ≠ 0 ∧ xDen H ≠ 0) ∧
    xDen 1 = 0 ∧
    renderFrame scene 1 1 c buf (pixelBase 1 0 0) =
      (if castRay scene (pixelOx 1 0) (pixelOy 1 0) (-1) 0 0 1 then c else 0) := by
  refine ⟨⟨?_, ?_⟩, rfl, ?_⟩
  · simp only [xDen]
    omega
  · simp only [xDen]
    omega
  · have h := renderFrame_at scene 1 1 c buf 0 0 0 (by omega) (by omega) (by omega)
    simpa [chanVal, redByte] using h

/-- Witness for the divisor theorem at the concrete sizes 2 and 2. -/
theorem pixel_divisors_witness :
    (xDen 2 ≠ 0 ∧ xDen 2 ≠ 0) ∧
    xDen 1 = 0 ∧
    renderFrame builtScene 1 1 0 (fun _ => 0) (pixelBase 1 0 0) =
      (if castRay builtScene (pixelOx 1 0) (pixelOy 1 0) (-1) 0 0 1 then 0 else 0) :=
  pixel_divisors builtScene 0 (fun _ => 0) 2 2 (by decide) (by decide)

/-- C6: after the commit, no operation of the program mutates the scene:
the query of every CastRay call returns the scene unchanged, and any
number of iterations of the render loop leaves the scene component of the
loop state unchanged. -/
theorem scene_unchanged_after_commit :
    (∀ (scene : Scene) (ox oy oz dx dy dz : ℚ),
        (castRayOp scene ox oy oz dx dy dz).1 = scene) ∧
    (∀ (W H n : Nat) (st : LoopState), (runLoop W H n st).scene = st.scene) := by
  refine ⟨fun scene ox oy oz dx dy dz => rfl, ?_⟩
  intro W H n
  induction n with
  | zero => intro st; rfl
  | succ n ih =>
      intro st
      show (runLoop W H n (loopIter W H st)).scene = st.scene
      rw [ih]
      rfl

/-- C7: two CastRay invocations with identical origin and direction
inputs, the second run against the scene state left by the first, return
identical hit results. -/
theorem castRay_deterministic (scene : Scene) (ox oy oz dx dy dz : ℚ) :
    (castRayOp ((castRayOp scene ox oy oz dx dy dz).1) ox oy oz dx dy dz).2 =
      (castRayOp scene ox oy oz dx dy dz).2 := rfl

theorem countP_pixelEvents_zero (W H : Nat) (p : Event → Bool)
    (hp : ∀ o d, p (Event.intersect o d) = false) :
    (pixelEvents W H).countP p = 0 := by
  rw [List.countP_eq_zero]
  intro e he
  simp only [pixelEvents, List.mem_flatMap, List.mem_map, List.mem_range] at he
  obtain ⟨y, hy, x, hx, rfl⟩ := he
  simp [hp]

theorem countP_frameEvents_zero (W H : Nat) (p : Event → Bool)
    (hp : ∀ o d, p (Event.intersect o d) = false)
    (h1 : p Event.pollEvents = false)
    (h2 : p Event.drawPixels = false)
    (h3 : p Event.swapBuffers = false) :
    (frameEvents W H).countP p = 0 := by
  have hpix := countP_pixelEvents_zero W H p hp
  simp [frameEvents, List.countP_cons, List.countP_append, hpix, h1, h2, h3]

theorem countP_flatten_replicate (n : Nat) (l : List Event) (p : Event → Bool) :
    (List.flatten (List.replicate n l)).countP p = n * l.countP p := by
  induction n with
  | zero => simp
  | succ n ih =>
      rw [List.replicate_succ, List.flatten_cons, List.countP_append, ih]
      ring

/-- C8: on every terminating run of main (the render loop having run any
number of frames before the window closes), the trace releases the scene
exactly once and the device exactly once, matching their single
acquisitions. -/
theorem releases_exactly_once (frames W H : Nat) :
    ((mainTrace frames W H).countP isDeleteScene = 1 ∧
      (mainTrace frames W H).countP isNewScene = 1) ∧
    ((mainTrace frames W H).countP isDeleteDevice = 1 ∧
      (mainTrace frames W H).countP isNewDevice = 1) := by
  have hds := countP_frameEvents_zero W H isDeleteScene (fun o d => rfl) rfl rfl rfl
  have hns := countP_frameEvents_zero W H isNewScene (fun o d => rfl) rfl rfl rfl
  have hdd := countP_frameEvents_zero W H isDeleteDevice (fun o d => rfl) rfl rfl rfl
  have hnd := countP_frameEvents_zero W H isNewDevice (fun o d => rfl) rfl rfl rfl
  refine ⟨⟨?_, ?_⟩, ?_, ?_⟩ <;>
    simp [mainTrace, List.countP_append, countP_flatten_replicate, hds, hns, hdd, hnd,
      initEvents, shutdownEvents, List.countP_cons, isDeleteScene, isNewScene,
      isDeleteDevice, isNewDevice]

/-- C9 counterexample: when device creation fails, an error is reported
(the returned handle is invalid and exactly one diagnostic line is
printed) but no line of the output comes through the registered error
callback: the failure is reported by a direct printf instead. -/
theorem device_error_not_via_callback :
    (initializeDevice none 2).1.valid = false ∧
    (initializeDevice none 2).2.length = 1 ∧
    reportedViaCallback ((initializeDevice none 2).2) = false :=
  ⟨rfl, rfl, rfl⟩

/-- C9 amended: errors surfaced through the device go through the
registered callback errorFunction, which prints an error code and message;
device-creation failure is instead reported by a direct printf of an error
code and message; in both cases the program does not abort and continues
with the possibly-invalid handle. -/
theorem error_reporting_amended (code pendingError : Int) (str : String) (h : Option Unit) :
    errorFunction code str =
      { src := OutputSource.errorCallback
        text := "error " ++ toString code ++ ": " ++ str ++ "\n" } ∧
    (initializeDevice h pendingError).1.errorFn =
      (fun e s => (errorFunction e s).text) ∧
    (initializeDevice h pendingError).1.valid = h.isSome ∧
    (initializeDevice none pendingError).2 =
      [{ src := OutputSource.directPrintf
         text := "error " ++ toString pendingError ++ ": cannot create device\n" }] ∧
    (initializeDevice (some ()) pendingError).2 = [] :=
  ⟨rfl, rfl, rfl, rfl, rfl⟩
